import Mathlib

/-!
Verification development for the NeuralNote Whisper transcription service
(Scripts/whisper_service.py).

The service is shallowly embedded: JSON values are an inductive type,
Python dictionary operations become total Lean functions returning
Except-values where the Python operation can raise, the external model
pipeline is an arbitrary function parameter recorded in the service state,
and each Flask handler becomes a pure function from the service state and
the (parsed) request body to an outcome carrying the response, the list of
model invocations performed, and the log lines emitted.

Numbers carried by JSON are modelled as rationals: the claims under study
are structural (which fields flow where) and do not depend on binary
floating-point rounding.  Two numpy corner cases that no claim depends on
are modelled conservatively as conversion failures and flagged in comments
at the definition: numeric strings and nested (multi-dimensional) lists.
-/

namespace WhisperService

/-- JSON-like values, as produced by request.get_json(). -/
inductive JVal where
  | null
  | bool (b : Bool)
  | num (q : ℚ)
  | str (s : String)
  | arr (xs : List JVal)
  | obj (kvs : List (String × JVal))

/-- Lookup of a key in a JSON object (Python dict indexing on a present key).
JSON parsing leaves dictionaries with unique keys, so first-match lookup
is faithful. -/
def jlookup : List (String × JVal) → String → Option JVal
  | [], _ => none
  | (k, v) :: rest, key => if k = key then some v else jlookup rest key

/-- Python equality between a JSON value and an integer, as used by the
comparison data["sample_rate"] != expected_sr.  Numbers compare by value,
booleans compare as 0/1, every other shape is unequal. -/
def pyEqInt (v : JVal) (n : ℤ) : Bool :=
  match v with
  | .num q => q == (n : ℚ)
  | .bool b => (if b then (1 : ℚ) else 0) == (n : ℚ)
  | _ => false

/-- Python equality between a JSON value and a string. -/
def pyEqStr (v : JVal) (s : String) : Bool :=
  match v with
  | .str t => t == s
  | _ => false

/-- Substring test, for the Python expression key in s when s is a string. -/
def strContains (s pat : String) : Bool :=
  (s.splitOn pat).length ≥ 2

/-- Python str.strip() with no argument: remove leading and trailing
whitespace (modelled as space, tab, CR, LF). -/
def pyStrip (s : String) : String :=
  ⟨(((s.data.dropWhile Char.isWhitespace).reverse.dropWhile Char.isWhitespace).reverse)⟩

/-- Python truthiness of a JSON value, as used by if data["language"]:. -/
def truthy : JVal → Bool
  | .null => false
  | .bool b => b
  | .num q => q != 0
  | .str s => s != ""
  | .arr xs => !xs.isEmpty
  | .obj kvs => !kvs.isEmpty

/-- The Python expression key in data.  On a dict this is key membership,
on a list it is element equality with the key string, on a string it is a
substring test, and on null / numbers / booleans it raises TypeError. -/
def jContains (data : JVal) (key : String) : Except String Bool :=
  match data with
  | .obj kvs => .ok (jlookup kvs key).isSome
  | .arr xs => .ok (xs.any fun v => pyEqStr v key)
  | .str s => .ok (strContains s key)
  | .null => .error "TypeError: argument of type NoneType is not iterable"
  | .bool _ => .error "TypeError: argument of type bool is not iterable"
  | .num _ => .error "TypeError: argument of type float is not iterable"

/-- The Python expression data[key] with a string key.  On a dict it
returns the value or raises KeyError; on every other shape it raises
TypeError. -/
def jIndexStr (data : JVal) (key : String) : Except String JVal :=
  match data with
  | .obj kvs =>
    match jlookup kvs key with
    | some v => .ok v
    | none => .error ("KeyError: " ++ key)
  | .arr _ => .error "TypeError: list indices must be integers or slices, not str"
  | .str _ => .error "TypeError: string indices must be integers"
  | _ => .error "TypeError: value is not subscriptable"

/-- The Python expression data.get(key, default).  Only dicts have a get
attribute; on every other shape the attribute access raises. -/
def pyGet (data : JVal) (key : String) (dflt : JVal) : Except String JVal :=
  match data with
  | .obj kvs => .ok ((jlookup kvs key).getD dflt)
  | _ => .error "AttributeError: value has no attribute get"

/-- Conversion of one JSON scalar by np.float32, used elementwise by
np.array(..., dtype=np.float32).  Booleans convert as 0/1.  Numeric
strings and null have numpy-specific conversions that no claim under
study depends on; both are modelled as conversion failures. -/
def npScalarF32 (v : JVal) : Except String ℚ :=
  match v with
  | .num q => .ok q
  | .bool b => .ok (if b then 1 else 0)
  | _ => .error "ValueError: could not convert value to float32"

/-- A numpy array as far as this service observes it: either a
zero-dimensional scalar (produced from a bare number) or a
one-dimensional vector.  Nested lists (multi-dimensional arrays) are not
modelled; no claim under study depends on them. -/
inductive NpArr where
  | scalar (x : ℚ)
  | vector (xs : List ℚ)

/-- The conversion np.array(v, dtype=np.float32): a JSON list becomes a
vector by elementwise scalar conversion, any other convertible value
becomes a zero-dimensional scalar array. -/
def npArray (v : JVal) : Except String NpArr :=
  match v with
  | .arr xs => (xs.mapM npScalarF32).map .vector
  | _ => (npScalarF32 v).map .scalar

/-- The Python expression len(a) on a numpy array: defined for a vector,
raises TypeError on a zero-dimensional array. -/
def npLen (a : NpArr) : Except String ℕ :=
  match a with
  | .vector xs => .ok xs.length
  | .scalar _ => .error "TypeError: len() of unsized object"

/-- One raw segment (chunk) of the model result.  The outer Option of
timestamp records presence of the timestamp key, the next Option records
a null value versus an actual pair, and each bound of the pair may itself
be null. -/
structure Chunk where
  text : String
  timestamp : Option (Option (Option ℚ × Option ℚ))

/-- The raw result returned by the speech-recognition pipeline: the text
key and the chunks key may each be absent. -/
structure RawResult where
  text : Option String
  chunks : Option (List Chunk)

/-- A word record of the /transcribe response. -/
structure Word where
  text : String
  start : ℚ
  «end» : ℚ
  confidence : ℚ
deriving DecidableEq

/-- The generation configuration handed to the pipeline invocation. -/
structure GenerateKwargs where
  max_new_tokens : ℕ
  task : JVal
  return_timestamps : String
  language : Option JVal

/-- The argument of one pipeline invocation: the audio buffer, the
sampling rate it is tagged with, and the generation configuration. -/
structure PipelineInput where
  array : NpArr
  sampling_rate : ℤ
  generate_kwargs : GenerateKwargs

/-- The external automatic-speech-recognition pipeline: an arbitrary
function from the invocation argument to a raw result or a raised
exception. -/
def Pipeline : Type := PipelineInput → Except String RawResult

/-- The model metadata recorded by initialize_model. -/
structure ModelInfo where
  model_id : String
  device : String
  dtype : String
  sample_rate : ℤ

/-- The two module-level globals of the service: whisper_pipeline and
model_info (the initial empty dict is modelled as none). -/
structure ServiceState where
  whisper_pipeline : Option Pipeline
  model_info : Option ModelInfo

/-- Response bodies produced by the service, one constructor per jsonify
payload shape in the source. -/
inductive RespBody where
  | errorMsg (error : String)
  | statusMessage (status message : String)
  | healthOk (model : Option ModelInfo)
  | info (model : Option ModelInfo)
  | transcription (text : String) (words : List Word)

/-- An HTTP response: status code and JSON body. -/
structure HttpResponse where
  status : ℕ
  body : RespBody

/-- The outcome of one handler invocation: the service state afterwards,
the response, the pipeline invocations performed, and log lines. -/
structure HandlerOutcome where
  state : ServiceState
  response : HttpResponse
  pipelineCalls : List PipelineInput
  log : List String

/-- State transition of initialize_model.  The external loading work
(from_pretrained, building the pipeline) is abstracted as loadResult; on
success both globals are assigned, on failure the exception propagates
and the globals keep their previous values. -/
def initialize_model (loadResult : Except String (Pipeline × ModelInfo))
    (_st : ServiceState) : Except String ServiceState :=
  match loadResult with
  | .ok pm => .ok { whisper_pipeline := some pm.1, model_info := some pm.2 }
  | .error e => .error e

/-- Conversion of one raw chunk into a word record, following the loop
body of the timestamp extraction: a chunk whose timestamp key is present
and non-null yields one word with the text stripped, each null bound
substituted by 0.0 and confidence 1.0; every other chunk yields nothing. -/
def wordOfChunk (c : Chunk) : Option Word :=
  match c.timestamp with
  | some (some (s, e)) =>
    some { text := pyStrip c.text
           start := s.getD 0
           «end» := e.getD 0
           confidence := 1 }
  | _ => none

/-- The timestamp extraction of /transcribe: iterate over the chunks of
the raw result in order (nothing if the chunks key is absent), emitting
one word per chunk with usable timing. -/
def extractWords (result : RawResult) : List Word :=
  match result.chunks with
  | some cs => cs.filterMap wordOfChunk
  | none => []

/-- Whether a chunk carries a present, non-null time pair. -/
def hasTimePair (c : Chunk) : Bool :=
  match c.timestamp with
  | some (some _) => true
  | _ => false

/-- The time pair of a chunk (meaningful only when hasTimePair holds). -/
def timePair (c : Chunk) : Option ℚ × Option ℚ :=
  match c.timestamp with
  | some (some pr) => pr
  | _ => (none, none)

/-- The expression model_info.get("sample_rate", 16000) (line 152 of the
source): the recorded sample rate, defaulting to 16000 while the metadata
dict is still empty. -/
def expectedSampleRate (st : ServiceState) : ℤ :=
  match st.model_info with
  | some mi => mi.sample_rate
  | none => 16000

/-- The sample-rate advisory check (lines 152-154 of the source): when
the body carries a sample_rate field differing from the recorded rate, a
warning is logged; nothing else happens.  The non-dict cases are
unreachable here because indexing data with the audio key succeeded
before this point, which only a dict survives. -/
def srWarnLog (data : JVal) (expected_sr : ℤ) : List String :=
  match data with
  | .obj kvs =>
    match jlookup kvs "sample_rate" with
    | some v => if pyEqInt v expected_sr then [] else ["sample rate mismatch warning"]
    | none => []
  | _ => []

/-- The tail of the try-block of transcribe_audio, from the assembly of
generate_kwargs (line 157) to the jsonified response: it reads the body
only through its task and language fields.  It returns the response, the
pipeline invocations performed, and the log lines it emits (the
sample-rate warning is prefixed by the caller). -/
def transcribe_rest (pipe : Pipeline) (data : JVal) (audio_array : NpArr)
    (expected_sr : ℤ) : HttpResponse × List PipelineInput × List String :=
  match pyGet data "task" (.str "transcribe") with
  | .error e => (⟨500, .errorMsg e⟩, [], [])
  | .ok task =>
    match jContains data "language" with
    | .error e => (⟨500, .errorMsg e⟩, [], [])
    | .ok hasLang =>
      match
        (if hasLang then
          (jIndexStr data "language").map (fun v => if truthy v then some v else none)
        else .ok none : Except String (Option JVal)) with
      | .error e => (⟨500, .errorMsg e⟩, [], [])
      | .ok language =>
        let generate_kwargs : GenerateKwargs :=
          { max_new_tokens := 448
            task := task
            return_timestamps := "word"
            language := language }
        match npLen audio_array with
        | .error e => (⟨500, .errorMsg e⟩, [], [])
        | .ok _ =>
          let input : PipelineInput :=
            { array := audio_array
              sampling_rate := expected_sr
              generate_kwargs := generate_kwargs }
          match pipe input with
          | .error e => (⟨500, .errorMsg e⟩, [input], ["Transcribing audio"])
          | .ok result =>
            (⟨200, .transcription (result.text.getD "") (extractWords result)⟩,
              [input], ["Transcribing audio", "Transcription complete"])

/-- The try-block of transcribe_audio, from request.get_json() to the
jsonified response, returning the response together with the pipeline
invocations performed and the log lines emitted.  A body of none stands
for a request whose JSON decoding fails: get_json then raises, and the
generic except-clause converts the exception to a 500. -/
def transcribe_body (st : ServiceState) (pipe : Pipeline) (body : Option JVal) :
    HttpResponse × List PipelineInput × List String :=
  match body with
  | none => (⟨500, .errorMsg "400 Bad Request: failed to decode JSON object"⟩, [], [])
  | some data =>
    match jContains data "audio" with
    | .error e => (⟨500, .errorMsg e⟩, [], [])
    | .ok false => (⟨400, .errorMsg "Missing \x27audio\x27 field"⟩, [], [])
    | .ok true =>
      match jIndexStr data "audio" with
      | .error e => (⟨500, .errorMsg e⟩, [], [])
      | .ok audioVal =>
        match npArray audioVal with
        | .error e => (⟨500, .errorMsg e⟩, [], [])
        | .ok audio_array =>
          ((transcribe_rest pipe data audio_array (expectedSampleRate st)).1,
            (transcribe_rest pipe data audio_array (expectedSampleRate st)).2.1,
            srWarnLog data (expectedSampleRate st) ++
              (transcribe_rest pipe data audio_array (expectedSampleRate st)).2.2)

/-- The /transcribe handler: a 503 while the pipeline global is unset,
otherwise the try-block above.  The handler never writes the globals. -/
def transcribe_audio (st : ServiceState) (body : Option JVal) : HandlerOutcome :=
  match st.whisper_pipeline with
  | none => ⟨st, ⟨503, .errorMsg "Model not initialized"⟩, [], []⟩
  | some pipe =>
    ⟨st, (transcribe_body st pipe body).1, (transcribe_body st pipe body).2.1,
      (transcribe_body st pipe body).2.2⟩

/-- The /health handler. -/
def health_check (st : ServiceState) : HandlerOutcome :=
  match st.whisper_pipeline with
  | none => ⟨st, ⟨503, .statusMessage "error" "Model not initialized"⟩, [], []⟩
  | some _ => ⟨st, ⟨200, .healthOk st.model_info⟩, [], []⟩

/-- The /info handler. -/
def get_model_info (st : ServiceState) : HandlerOutcome :=
  match st.whisper_pipeline with
  | none => ⟨st, ⟨503, .errorMsg "Model not initialized"⟩, [], []⟩
  | some _ => ⟨st, ⟨200, .info st.model_info⟩, [], []⟩

/-- One incoming HTTP request, routed to a handler. -/
inductive Request where
  | health
  | info
  | transcribe (body : Option JVal)

/-- Dispatch of one request to its handler. -/
def handle (st : ServiceState) : Request → HandlerOutcome
  | .health => health_check st
  | .info => get_model_info st
  | .transcribe body => transcribe_audio st body

/-- Sequential execution of a list of requests, threading the service
state, collecting the responses. -/
def runRequests (st : ServiceState) : List Request → ServiceState × List HttpResponse
  | [] => (st, [])
  | r :: rs =>
    ((runRequests (handle st r).state rs).1,
      (handle st r).response :: (runRequests (handle st r).state rs).2)

/-- Removal of one key from a JSON object, used to state that an outcome
does not depend on that key. -/
def eraseKey (kvs : List (String × JVal)) (key : String) : List (String × JVal) :=
  kvs.filter fun kv => !(kv.1 == key)

/-! Helper lemmas shared by the claim theorems below. -/

theorem jlookup_eraseKey (kvs : List (String × JVal)) (key k : String) (h : k ≠ key) :
    jlookup (eraseKey kvs key) k = jlookup kvs k := by
  induction kvs with
  | nil => rfl
  | cons kv rest ih =>
    obtain ⟨k1, v1⟩ := kv
    by_cases hk : k1 = key
    · have hne : ¬k1 = k := fun hkk => h (hkk ▸ hk)
      have h1 : eraseKey ((k1, v1) :: rest) key = eraseKey rest key := by
        simp [eraseKey, List.filter_cons, hk]
      rw [h1, ih]
      simp only [jlookup, if_neg hne]
    · have h1 : eraseKey ((k1, v1) :: rest) key = (k1, v1) :: eraseKey rest key := by
        simp [eraseKey, List.filter_cons, hk]
      rw [h1]
      simp only [jlookup]
      by_cases hkk : k1 = k
      · rw [if_pos hkk, if_pos hkk]
      · rw [if_neg hkk, if_neg hkk, ih]

theorem handle_state (st : ServiceState) (r : Request) : (handle st r).state = st := by
  cases r <;> cases hp : st.whisper_pipeline <;>
    simp [handle, health_check, get_model_info, transcribe_audio, hp]

theorem runRequests_spec (st : ServiceState) (reqs : List Request) :
    (runRequests st reqs).1 = st ∧
    (runRequests st reqs).2 = reqs.map fun r => (handle st r).response := by
  induction reqs with
  | nil => simp [runRequests]
  | cons r rs ih => simp [runRequests, handle_state, ih.1, ih.2]

theorem filterMap_wordOfChunk (cs : List Chunk) :
    cs.filterMap wordOfChunk =
      (cs.filter hasTimePair).map fun c =>
        { text := pyStrip c.text
          start := (timePair c).1.getD 0
          «end» := (timePair c).2.getD 0
          confidence := 1 } := by
  induction cs with
  | nil => rfl
  | cons c rest ih =>
    rcases hts : c.timestamp with _ | (_ | pr)
    · simp [List.filterMap_cons, List.filter_cons, wordOfChunk, hasTimePair, hts, ih]
    · simp [List.filterMap_cons, List.filter_cons, wordOfChunk, hasTimePair, hts, ih]
    · simp [List.filterMap_cons, List.filter_cons, wordOfChunk, hasTimePair, timePair, hts, ih]

/-! Claim theorems. -/

/-- Claim C1: for every raw model result, the timestamp extraction emits
exactly one Word per segment with a present non-null time pair, in input
order with no re-sorting, with the text trimmed, each null bound
substituted by 0.0, and confidence 1.0; segments without a usable time
pair are dropped, so the number of emitted words is at most the number of
raw segments. -/
theorem c1_timestamp_extraction (t : Option String) (cs : List Chunk) :
    extractWords ⟨t, some cs⟩ =
      (cs.filter hasTimePair).map (fun c =>
        { text := pyStrip c.text
          start := (timePair c).1.getD 0
          «end» := (timePair c).2.getD 0
          confidence := 1 }) ∧
    (extractWords ⟨t, some cs⟩).length ≤ cs.length := by
  refine ⟨filterMap_wordOfChunk cs, ?_⟩
  simpa [extractWords] using List.length_filterMap_le wordOfChunk cs

/-- Claim C2: a /transcribe request whose (dict) body lacks the audio
field is answered 400 with body error = Missing audio field, whatever
other fields are present (the model being initialized, per C3). -/
theorem c2_missing_audio_400 (st : ServiceState) (p : Pipeline)
    (hp : st.whisper_pipeline = some p) (kvs : List (String × JVal))
    (h : jlookup kvs "audio" = none) :
    (transcribe_audio st (some (.obj kvs))).response =
      ⟨400, .errorMsg "Missing \x27audio\x27 field"⟩ := by
  simp [transcribe_audio, hp, transcribe_body, jContains, h]

/-- Witness for C2: a concrete ready state and a body carrying only a
language field. -/
theorem c2_missing_audio_400_witness :
    (ServiceState.mk (some (fun _ => Except.ok ⟨none, none⟩)) none).whisper_pipeline =
        some (fun _ => Except.ok ⟨none, none⟩) ∧
    jlookup [("language", JVal.str "en")] "audio" = none ∧
    (transcribe_audio ⟨some (fun _ => Except.ok ⟨none, none⟩), none⟩
        (some (.obj [("language", .str "en")]))).response =
      ⟨400, .errorMsg "Missing \x27audio\x27 field"⟩ :=
  ⟨rfl, rfl, c2_missing_audio_400 _ _ rfl _ rfl⟩

/-- Claim C3: while the model is not initialized (the pipeline global is
unset), /health, /transcribe and /info all answer 503. -/
theorem c3_unready_503 (st : ServiceState) (h : st.whisper_pipeline = none)
    (body : Option JVal) :
    (health_check st).response.status = 503 ∧
    (transcribe_audio st body).response.status = 503 ∧
    (get_model_info st).response.status = 503 := by
  simp [health_check, transcribe_audio, get_model_info, h]

/-- Witness for C3: the initial state and an arbitrary request body. -/
theorem c3_unready_503_witness :
    (ServiceState.mk none none).whisper_pipeline = none ∧
    ((health_check ⟨none, none⟩).response.status = 503 ∧
      (transcribe_audio ⟨none, none⟩ none).response.status = 503 ∧
      (get_model_info ⟨none, none⟩).response.status = 503) :=
  ⟨rfl, c3_unready_503 _ rfl none⟩

/-- Counterexample to claim C5 as stated: the extractor copies the time
pair verbatim, so a raw segment whose pair is reversed (5, 2) yields a
Word with both bounds taken from non-null values and start > end. -/
theorem c5_counterexample :
    (transcribe_audio
        ⟨some (fun _ => Except.ok ⟨none, some [⟨"hi", some (some (some 5, some 2))⟩]⟩),
          some ⟨"m", "cpu", "torch.float32", 16000⟩⟩
        (some (.obj [("audio", .arr [.num 0])]))).response =
      ⟨200, .transcription "" [⟨"hi", 5, 2, 1⟩]⟩ ∧
    ¬((5 : ℚ) ≤ 2) := by
  exact ⟨rfl, by decide⟩

/-- Claim C5 (amended): provided every raw time pair whose bounds are
both non-null is ordered, every emitted Word either has a bound equal to
0.0 (the substituted default) or satisfies start ≤ end; the extractor
copies bounds verbatim and does not itself enforce the ordering. -/
theorem c5_start_le_end (t : Option String) (cs : List Chunk)
    (h : ∀ c ∈ cs, ∀ a b : ℚ, c.timestamp = some (some (some a, some b)) → a ≤ b) :
    ∀ w ∈ extractWords ⟨t, some cs⟩,
      w.start = 0 ∨ w.«end» = 0 ∨ w.start ≤ w.«end» := by
  intro w hw
  simp only [extractWords] at hw
  rw [List.mem_filterMap] at hw
  obtain ⟨c, hc, hwc⟩ := hw
  rcases hts : c.timestamp with _ | (_ | ⟨s, e⟩)
  · simp [wordOfChunk, hts] at hwc
  · simp [wordOfChunk, hts] at hwc
  · rcases s with _ | a
    · simp only [wordOfChunk, hts, Option.some.injEq] at hwc
      subst hwc
      left
      rfl
    · rcases e with _ | b
      · simp only [wordOfChunk, hts, Option.some.injEq] at hwc
        subst hwc
        right; left
        rfl
      · simp only [wordOfChunk, hts, Option.some.injEq] at hwc
        subst hwc
        right; right
        exact h c hc a b hts

/-- Witness for C5 (amended) at a single ordered segment. -/
theorem c5_start_le_end_witness :
    (∀ c ∈ [(⟨"a", some (some (some 1, some 2))⟩ : Chunk)], ∀ a b : ℚ,
        c.timestamp = some (some (some a, some b)) → a ≤ b) ∧
    (∀ w ∈ extractWords ⟨none, some [⟨"a", some (some (some 1, some 2))⟩]⟩,
        w.start = 0 ∨ w.«end» = 0 ∨ w.start ≤ w.«end») := by
  have hh : ∀ c ∈ [(⟨"a", some (some (some 1, some 2))⟩ : Chunk)], ∀ a b : ℚ,
      c.timestamp = some (some (some a, some b)) → a ≤ b := by
    intro c hc a b hab
    rw [List.mem_singleton] at hc
    subst hc
    simp only [Option.some.injEq, Prod.mk.injEq] at hab
    obtain ⟨ha, hb⟩ := hab
    subst ha
    subst hb
    decide
  exact ⟨hh, c5_start_le_end none _ hh⟩

/-- Claim C7: the /transcribe outcome (response and model invocations)
does not depend on the sample_rate field of the body: removing it, hence
changing its presence or value, leaves both unchanged; only the
server-side log can differ. -/
theorem c7_sample_rate_immaterial (st : ServiceState) (kvs : List (String × JVal)) :
    (transcribe_audio st (some (.obj (eraseKey kvs "sample_rate")))).response =
      (transcribe_audio st (some (.obj kvs))).response ∧
    (transcribe_audio st (some (.obj (eraseKey kvs "sample_rate")))).pipelineCalls =
      (transcribe_audio st (some (.obj kvs))).pipelineCalls := by
  cases hp : st.whisper_pipeline with
  | none => simp [transcribe_audio, hp]
  | some p =>
    have ha := jlookup_eraseKey kvs "sample_rate" "audio" (by decide)
    have ht := jlookup_eraseKey kvs "sample_rate" "task" (by decide)
    have hl := jlookup_eraseKey kvs "sample_rate" "language" (by decide)
    have hrest : ∀ arr sr,
        transcribe_rest p (.obj (eraseKey kvs "sample_rate")) arr sr =
          transcribe_rest p (.obj kvs) arr sr := by
      intro arr sr
      simp only [transcribe_rest, pyGet, jContains, jIndexStr, ha, ht, hl]
    cases haud : jlookup kvs "audio" with
    | none =>
      simp [transcribe_audio, hp, transcribe_body, jContains, ha, haud]
    | some a =>
      cases hn : npArray a with
      | error e =>
        simp [transcribe_audio, hp, transcribe_body, jContains, jIndexStr, ha, haud, hn]
      | ok arr =>
        simp [transcribe_audio, hp, transcribe_body, jContains, jIndexStr, ha, haud, hn,
          hrest]

/-- Claim C9: after a successful initialization recording the pipeline
and the model metadata, no handler writes the state: running any request
sequence leaves the state unchanged, every response is a function of the
state recorded at initialization, and /health and /info always report
exactly that metadata (model_id, device, dtype, sample_rate). -/
theorem c9_state_written_once (st0 st : ServiceState) (p : Pipeline) (mi : ModelInfo)
    (h : initialize_model (.ok (p, mi)) st0 = .ok st) (reqs : List Request) :
    (runRequests st reqs).1 = st ∧
    (runRequests st reqs).2 = reqs.map (fun r => (handle st r).response) ∧
    (handle st .health).response = ⟨200, .healthOk (some mi)⟩ ∧
    (handle st .info).response = ⟨200, .info (some mi)⟩ := by
  have hst : ServiceState.mk (some p) (some mi) = st := by
    simpa [initialize_model] using h
  subst hst
  refine ⟨(runRequests_spec _ reqs).1, (runRequests_spec _ reqs).2, ?_, ?_⟩
  · simp [handle, health_check]
  · simp [handle, get_model_info]

/-- Witness for C9: a concrete initialization followed by one health and
one info request. -/
theorem c9_state_written_once_witness :
    initialize_model
        (.ok (fun _ => Except.ok ⟨none, none⟩, ⟨"m", "cpu", "torch.float32", 16000⟩))
        ⟨none, none⟩ =
      .ok ⟨some (fun _ => Except.ok ⟨none, none⟩), some ⟨"m", "cpu", "torch.float32", 16000⟩⟩ ∧
    ((runRequests ⟨some (fun _ => Except.ok ⟨none, none⟩),
        some ⟨"m", "cpu", "torch.float32", 16000⟩⟩ [.health, .info]).1 =
      ⟨some (fun _ => Except.ok ⟨none, none⟩), some ⟨"m", "cpu", "torch.float32", 16000⟩⟩ ∧
    (runRequests ⟨some (fun _ => Except.ok ⟨none, none⟩),
        some ⟨"m", "cpu", "torch.float32", 16000⟩⟩ [.health, .info]).2 =
      [Request.health, Request.info].map
        (fun r => (handle ⟨some (fun _ => Except.ok ⟨none, none⟩),
          some ⟨"m", "cpu", "torch.float32", 16000⟩⟩ r).response) ∧
    (handle ⟨some (fun _ => Except.ok ⟨none, none⟩),
        some ⟨"m", "cpu", "torch.float32", 16000⟩⟩ .health).response =
      ⟨200, .healthOk (some ⟨"m", "cpu", "torch.float32", 16000⟩)⟩ ∧
    (handle ⟨some (fun _ => Except.ok ⟨none, none⟩),
        some ⟨"m", "cpu", "torch.float32", 16000⟩⟩ .info).response =
      ⟨200, .info (some ⟨"m", "cpu", "torch.float32", 16000⟩)⟩) :=
  ⟨rfl, c9_state_written_once ⟨none, none⟩ _ _ _ rfl _⟩

/-- Helper: on a dict body with a one-dimensional audio array, the
try-block tail performs exactly one pipeline invocation, whose argument
is determined by the task and language fields, and answers 500 or 200. -/
theorem transcribe_rest_obj_spec (pipe : Pipeline) (kvs : List (String × JVal))
    (xs : List ℚ) (sr : ℤ) :
    (transcribe_rest pipe (.obj kvs) (.vector xs) sr).2.1 =
      [⟨.vector xs, sr,
        ⟨448, (jlookup kvs "task").getD (.str "transcribe"), "word",
          match jlookup kvs "language" with
          | some v => if truthy v then some v else none
          | none => none⟩⟩] ∧
    ((transcribe_rest pipe (.obj kvs) (.vector xs) sr).1.status = 500 ∨
      (transcribe_rest pipe (.obj kvs) (.vector xs) sr).1.status = 200) := by
  cases hl : jlookup kvs "language" with
  | none =>
    refine ⟨?_, ?_⟩ <;>
      · simp only [transcribe_rest, pyGet, jContains, jIndexStr, npLen, hl]
        simp only [Option.isSome_none, Bool.false_eq_true, if_false]
        split <;> simp
  | some v =>
    refine ⟨?_, ?_⟩ <;>
      · simp only [transcribe_rest, pyGet, jContains, jIndexStr, npLen, hl]
        simp only [Option.isSome_some, if_true, Except.map]
        split <;> simp

/-- Helper: on a dict body whose audio converted to a zero-dimensional
array, the try-block tail fails at len() before any pipeline invocation. -/
theorem transcribe_rest_obj_scalar (pipe : Pipeline) (kvs : List (String × JVal))
    (x : ℚ) (sr : ℤ) :
    transcribe_rest pipe (.obj kvs) (.scalar x) sr =
      (⟨500, .errorMsg "TypeError: len() of unsized object"⟩, [], []) := by
  cases hl : jlookup kvs "language" <;>
    simp [transcribe_rest, pyGet, jContains, jIndexStr, npLen, hl, Except.map]

/-- Helper: on a dict body with a one-dimensional audio array, when the
pipeline returns a result without raising, the response is the 200
transcription of that result. -/
theorem transcribe_rest_obj_ok (pipe : Pipeline) (kvs : List (String × JVal))
    (xs : List ℚ) (sr : ℤ) (r : RawResult) (hr : ∀ input, pipe input = .ok r) :
    (transcribe_rest pipe (.obj kvs) (.vector xs) sr).1 =
      ⟨200, .transcription (r.text.getD "") (extractWords r)⟩ := by
  cases hl : jlookup kvs "language" <;>
    simp [transcribe_rest, pyGet, jContains, jIndexStr, npLen, hl, hr, Except.map]

/-- Counterexample to claim C4 as stated: a supplied language hint that
is falsy (the empty string) is present in the body yet produces no
language entry in the generation configuration, refuting the only-if
direction of the claimed equivalence. -/
theorem c4_counterexample :
    (jlookup [("audio", JVal.arr [JVal.num 0]), ("language", JVal.str "")]
        "language").isSome = true ∧
    (transcribe_audio
        ⟨some (fun _ => Except.ok ⟨none, none⟩),
          some ⟨"m", "cpu", "torch.float32", 16000⟩⟩
        (some (.obj [("audio", .arr [.num 0]), ("language", .str "")]))).pipelineCalls =
      [⟨.vector [0], 16000, ⟨448, .str "transcribe", "word", none⟩⟩] :=
  ⟨rfl, rfl⟩

/-- Claim C4 (amended): for every validated /transcribe request the
model is invoked exactly once, with max_new_tokens 448, the task field of
the request defaulting to transcribe when absent, word-granularity
timestamps, the audio tagged with the Model Manager's recorded sample
rate (never the request's declared one), and a language entry present if
and only if the request supplied a truthy (non-empty, non-null, non-zero)
language value, forwarded unmodified; a supplied falsy language value is
treated as absent. -/
theorem c4_generation_config (st : ServiceState) (p : Pipeline) (mi : ModelInfo)
    (hp : st.whisper_pipeline = some p) (hmi : st.model_info = some mi)
    (kvs : List (String × JVal)) (a : JVal) (xs : List ℚ)
    (ha : jlookup kvs "audio" = some a) (hx : npArray a = .ok (.vector xs)) :
    (transcribe_audio st (some (.obj kvs))).pipelineCalls =
      [⟨.vector xs, mi.sample_rate,
        ⟨448, (jlookup kvs "task").getD (.str "transcribe"), "word",
          match jlookup kvs "language" with
          | some v => if truthy v then some v else none
          | none => none⟩⟩] := by
  have hsr : expectedSampleRate st = mi.sample_rate := by
    simp [expectedSampleRate, hmi]
  simp only [transcribe_audio, hp]
  simp only [transcribe_body, jContains, jIndexStr, ha, hx, hsr]
  simpa using (transcribe_rest_obj_spec p kvs xs mi.sample_rate).1

/-- Witness for C4 (amended): a concrete request carrying task and
language fields. -/
theorem c4_generation_config_witness :
    (ServiceState.mk (some (fun _ => Except.ok ⟨none, none⟩))
        (some ⟨"m", "cpu", "torch.float32", 22050⟩)).whisper_pipeline =
      some (fun _ => Except.ok ⟨none, none⟩) ∧
    (ServiceState.mk (some (fun _ => Except.ok ⟨none, none⟩))
        (some ⟨"m", "cpu", "torch.float32", 22050⟩)).model_info =
      some ⟨"m", "cpu", "torch.float32", 22050⟩ ∧
    jlookup [("audio", JVal.arr [JVal.num 0]), ("task", JVal.str "translate"),
        ("language", JVal.str "en"), ("sample_rate", JVal.num 16000)] "audio" =
      some (.arr [.num 0]) ∧
    npArray (.arr [.num 0]) = .ok (.vector [0]) ∧
    (transcribe_audio
        ⟨some (fun _ => Except.ok ⟨none, none⟩),
          some ⟨"m", "cpu", "torch.float32", 22050⟩⟩
        (some (.obj [("audio", .arr [.num 0]), ("task", .str "translate"),
          ("language", .str "en"), ("sample_rate", .num 16000)]))).pipelineCalls =
      [⟨.vector [0], 22050, ⟨448, .str "translate", "word", some (.str "en")⟩⟩] :=
  ⟨rfl, rfl, rfl, rfl,
    (c4_generation_config
      ⟨some (fun _ => Except.ok ⟨none, none⟩), some ⟨"m", "cpu", "torch.float32", 22050⟩⟩
      _ ⟨"m", "cpu", "torch.float32", 22050⟩ rfl rfl
      [("audio", JVal.arr [JVal.num 0]), ("task", JVal.str "translate"),
        ("language", JVal.str "en"), ("sample_rate", JVal.num 16000)]
      (JVal.arr [JVal.num 0]) [0] rfl rfl).trans rfl⟩

/-- Counterexample to claim C6 as stated: a present-but-empty audio list
is not rejected: it reaches the model (one pipeline invocation with an
empty buffer) and the request succeeds with status 200. -/
theorem c6_counterexample :
    (transcribe_audio
        ⟨some (fun _ => Except.ok ⟨some "", some []⟩),
          some ⟨"m", "cpu", "torch.float32", 16000⟩⟩
        (some (.obj [("audio", .arr [])]))).pipelineCalls =
      [⟨.vector [], 16000, ⟨448, .str "transcribe", "word", none⟩⟩] ∧
    (transcribe_audio
        ⟨some (fun _ => Except.ok ⟨some "", some []⟩),
          some ⟨"m", "cpu", "torch.float32", 16000⟩⟩
        (some (.obj [("audio", .arr [])]))).response.status = 200 :=
  ⟨rfl, rfl⟩

/-- Claim C6 (amended): a /transcribe request is rejected before any
model interaction when the audio field is absent (400) or when the
present audio value fails float-array conversion or converts to a
scalar without a length (500); a present audio list that converts,
including the empty list, reaches the model in exactly one invocation. -/
theorem c6_audio_validation (st : ServiceState) (p : Pipeline)
    (hp : st.whisper_pipeline = some p) (kvs : List (String × JVal)) :
    (jlookup kvs "audio" = none →
      (transcribe_audio st (some (.obj kvs))).response =
        ⟨400, .errorMsg "Missing \x27audio\x27 field"⟩ ∧
      (transcribe_audio st (some (.obj kvs))).pipelineCalls = []) ∧
    (∀ a e, jlookup kvs "audio" = some a → npArray a = .error e →
      (transcribe_audio st (some (.obj kvs))).response.status = 500 ∧
      (transcribe_audio st (some (.obj kvs))).pipelineCalls = []) ∧
    (∀ a x, jlookup kvs "audio" = some a → npArray a = .ok (.scalar x) →
      (transcribe_audio st (some (.obj kvs))).response.status = 500 ∧
      (transcribe_audio st (some (.obj kvs))).pipelineCalls = []) ∧
    (∀ a xs, jlookup kvs "audio" = some a → npArray a = .ok (.vector xs) →
      (transcribe_audio st (some (.obj kvs))).pipelineCalls.length = 1) := by
  refine ⟨?_, ?_, ?_, ?_⟩
  · intro h
    refine ⟨?_, ?_⟩ <;> simp [transcribe_audio, hp, transcribe_body, jContains, h]
  · intro a e ha he
    refine ⟨?_, ?_⟩ <;>
      simp [transcribe_audio, hp, transcribe_body, jContains, jIndexStr, ha, he]
  · intro a x ha hx
    refine ⟨?_, ?_⟩ <;>
      simp [transcribe_audio, hp, transcribe_body, jContains, jIndexStr, ha, hx,
        transcribe_rest_obj_scalar]
  · intro a xs ha hx
    simp only [transcribe_audio, hp, transcribe_body, jContains, jIndexStr, ha, hx]
    simp [(transcribe_rest_obj_spec p kvs xs (expectedSampleRate st)).1]

/-- Witness for C6 (amended): a concrete ready state and a body whose
audio value is null, which fails conversion. -/
theorem c6_audio_validation_witness :
    (ServiceState.mk (some (fun _ => Except.ok ⟨none, none⟩))
        (some ⟨"m", "cpu", "torch.float32", 16000⟩)).whisper_pipeline =
      some (fun _ => Except.ok ⟨none, none⟩) ∧
    jlookup [("audio", JVal.null)] "audio" = some .null ∧
    npArray .null = .error "ValueError: could not convert value to float32" ∧
    (transcribe_audio
        ⟨some (fun _ => Except.ok ⟨none, none⟩),
          some ⟨"m", "cpu", "torch.float32", 16000⟩⟩
        (some (.obj [("audio", .null)]))).response.status = 500 ∧
    (transcribe_audio
        ⟨some (fun _ => Except.ok ⟨none, none⟩),
          some ⟨"m", "cpu", "torch.float32", 16000⟩⟩
        (some (.obj [("audio", .null)]))).pipelineCalls = [] :=
  ⟨rfl, rfl, rfl,
    (c6_audio_validation _ _ rfl [("audio", JVal.null)]).2.1 .null
      "ValueError: could not convert value to float32" rfl rfl⟩

/-- Counterexample to claim C8 as stated: a malformed body (JSON null)
is answered 500, not 400 — the membership test on None raises and the
generic exception handler converts it — though the model is indeed never
invoked. -/
theorem c8_counterexample :
    (transcribe_audio
        ⟨some (fun _ => Except.ok ⟨none, none⟩),
          some ⟨"m", "cpu", "torch.float32", 16000⟩⟩
        (some .null)).response.status = 500 ∧
    (transcribe_audio
        ⟨some (fun _ => Except.ok ⟨none, none⟩),
          some ⟨"m", "cpu", "torch.float32", 16000⟩⟩
        (some .null)).pipelineCalls = [] :=
  ⟨rfl, rfl⟩

/-- Claim C8 (amended): validation failures short-circuit before any
model interaction, but malformed bodies map to 500, not 400: an
unparseable body and a body on which the audio membership test raises
are answered 500 with no model invocation; a dict body without an audio
field is answered 400 with no model invocation; and every 400 response
of /transcribe is that missing-audio rejection, issued with no model
invocation — only a missing audio field yields 400. -/
theorem c8_validation_short_circuit (st : ServiceState) (p : Pipeline)
    (hp : st.whisper_pipeline = some p) :
    ((transcribe_audio st none).response.status = 500 ∧
      (transcribe_audio st none).pipelineCalls = []) ∧
    (∀ data e, jContains data "audio" = .error e →
      (transcribe_audio st (some data)).response.status = 500 ∧
      (transcribe_audio st (some data)).pipelineCalls = []) ∧
    (∀ kvs, jlookup kvs "audio" = none →
      (transcribe_audio st (some (.obj kvs))).response =
        ⟨400, .errorMsg "Missing \x27audio\x27 field"⟩ ∧
      (transcribe_audio st (some (.obj kvs))).pipelineCalls = []) ∧
    (∀ body, (transcribe_audio st body).response.status = 400 →
      (transcribe_audio st body).response =
        ⟨400, .errorMsg "Missing \x27audio\x27 field"⟩ ∧
      (transcribe_audio st body).pipelineCalls = []) := by
  refine ⟨⟨?_, ?_⟩, ?_, ?_, ?_⟩
  · simp [transcribe_audio, hp, transcribe_body]
  · simp [transcribe_audio, hp, transcribe_body]
  · intro data e he
    refine ⟨?_, ?_⟩ <;> simp [transcribe_audio, hp, transcribe_body, he]
  · intro kvs h
    refine ⟨?_, ?_⟩ <;> simp [transcribe_audio, hp, transcribe_body, jContains, h]
  · intro body
    cases body with
    | none => intro h400; simp [transcribe_audio, hp, transcribe_body] at h400
    | some data =>
      cases data with
      | null => intro h400; simp [transcribe_audio, hp, transcribe_body, jContains] at h400
      | bool b => intro h400; simp [transcribe_audio, hp, transcribe_body, jContains] at h400
      | num q => intro h400; simp [transcribe_audio, hp, transcribe_body, jContains] at h400
      | str s =>
        by_cases hc : strContains s "audio"
        · intro h400
          simp [transcribe_audio, hp, transcribe_body, jContains, jIndexStr, hc] at h400
        · intro h400
          refine ⟨?_, ?_⟩ <;>
            simp [transcribe_audio, hp, transcribe_body, jContains, jIndexStr, hc]
      | arr xsv =>
        by_cases hc : xsv.any (fun v => pyEqStr v "audio")
        · intro h400
          simp [transcribe_audio, hp, transcribe_body, jContains, jIndexStr, hc] at h400
        · intro h400
          refine ⟨?_, ?_⟩ <;>
            simp [transcribe_audio, hp, transcribe_body, jContains, jIndexStr, hc]
      | obj kvs =>
        cases haud : jlookup kvs "audio" with
        | none =>
          intro h400
          refine ⟨?_, ?_⟩ <;>
            simp [transcribe_audio, hp, transcribe_body, jContains, haud]
        | some a =>
          intro h400
          exfalso
          cases hn : npArray a with
          | error e =>
            simp [transcribe_audio, hp, transcribe_body, jContains, jIndexStr,
              haud, hn] at h400
          | ok arr =>
            cases arr with
            | scalar x =>
              simp [transcribe_audio, hp, transcribe_body, jContains, jIndexStr, haud, hn,
                transcribe_rest_obj_scalar] at h400
            | vector xs =>
              simp only [transcribe_audio, hp, transcribe_body, jContains, jIndexStr,
                haud, hn, Option.isSome_some] at h400
              rcases (transcribe_rest_obj_spec p kvs xs (expectedSampleRate st)).2 with
                h5 | h2
              · rw [h400] at h5; exact absurd h5 (by decide)
              · rw [h400] at h2; exact absurd h2 (by decide)

/-- Witness for C8 (amended) at a concrete ready state. -/
theorem c8_validation_short_circuit_witness :
    (ServiceState.mk (some (fun _ => Except.ok ⟨none, none⟩))
        (some ⟨"m", "cpu", "torch.float32", 16000⟩)).whisper_pipeline =
      some (fun _ => Except.ok ⟨none, none⟩) ∧
    ((transcribe_audio
        ⟨some (fun _ => Except.ok ⟨none, none⟩),
          some ⟨"m", "cpu", "torch.float32", 16000⟩⟩ none).response.status = 500 ∧
      (transcribe_audio
        ⟨some (fun _ => Except.ok ⟨none, none⟩),
          some ⟨"m", "cpu", "torch.float32", 16000⟩⟩ none).pipelineCalls = []) :=
  ⟨rfl,
    (c8_validation_short_circuit
      ⟨some (fun _ => Except.ok ⟨none, none⟩),
        some ⟨"m", "cpu", "torch.float32", 16000⟩⟩ _ rfl).1⟩

/-- Claim C10: when the pipeline returns without raising, /transcribe
answers 200 with the transcription of the raw result, where a missing
text key contributes the empty string and a missing chunks key the empty
word list, rather than failing on the absent field. -/
theorem c10_missing_result_keys (st : ServiceState) (p : Pipeline) (r : RawResult)
    (hp : st.whisper_pipeline = some p) (hr : ∀ input, p input = .ok r)
    (kvs : List (String × JVal)) (a : JVal) (xs : List ℚ)
    (ha : jlookup kvs "audio" = some a) (hx : npArray a = .ok (.vector xs)) :
    (transcribe_audio st (some (.obj kvs))).response =
      ⟨200, .transcription (r.text.getD "") (extractWords r)⟩ ∧
    (r.text = none → r.text.getD "" = "") ∧
    (r.chunks = none → extractWords r = []) := by
  refine ⟨?_, ?_, ?_⟩
  · simp only [transcribe_audio, hp, transcribe_body, jContains, jIndexStr, ha, hx,
      Option.isSome_some]
    exact transcribe_rest_obj_ok p kvs xs (expectedSampleRate st) r hr
  · intro h; simp [h]
  · intro h; simp [extractWords, h]

/-- Witness for C10: a pipeline whose raw result lacks both the text and
the chunks key still yields 200 with empty text and no words. -/
theorem c10_missing_result_keys_witness :
    (ServiceState.mk (some (fun _ => Except.ok ⟨none, none⟩))
        (some ⟨"m", "cpu", "torch.float32", 16000⟩)).whisper_pipeline =
      some (fun _ => Except.ok ⟨none, none⟩) ∧
    (∀ input : PipelineInput,
      ((fun _ => Except.ok ⟨none, none⟩ : Pipeline)) input =
        Except.ok (⟨none, none⟩ : RawResult)) ∧
    jlookup [("audio", JVal.arr [])] "audio" = some (.arr []) ∧
    npArray (.arr []) = .ok (.vector []) ∧
    ((transcribe_audio
        ⟨some (fun _ => Except.ok ⟨none, none⟩),
          some ⟨"m", "cpu", "torch.float32", 16000⟩⟩
        (some (.obj [("audio", .arr [])]))).response =
      ⟨200, .transcription ((⟨none, none⟩ : RawResult).text.getD "")
        (extractWords ⟨none, none⟩)⟩ ∧
    ((⟨none, none⟩ : RawResult).text = none →
      (⟨none, none⟩ : RawResult).text.getD "" = "") ∧
    ((⟨none, none⟩ : RawResult).chunks = none → extractWords ⟨none, none⟩ = [])) :=
  ⟨rfl, fun _ => rfl, rfl, rfl,
    c10_missing_result_keys
      ⟨some (fun _ => Except.ok ⟨none, none⟩),
        some ⟨"m", "cpu", "torch.float32", 16000⟩⟩
      _ ⟨none, none⟩ rfl (fun _ => rfl)
      [("audio", JVal.arr [])] (JVal.arr []) [] rfl rfl⟩

end WhisperService
